import Mathlib

set_option linter.unusedVariables false

/-!
Verification of the issue-finder repository: a shallow embedding of the
linkage-resolution, classification, scoring, caching, transport-retry and
throttling code, with theorems settling the specification claims.

Python strings are modelled as Lean String or List Char; Python floats as
rationals; fallible calls as Option or Except; network responses as explicit
function-valued inputs (attempt index to outcome, pull number to payload).
-/

namespace IssueFinder

/-! ### Character and string helpers (shared by the regex translations) -/

/-- Python regex whitespace class over ASCII: space, tab, newline, carriage
return, vertical tab, form feed. -/
def isPySpace (c : Char) : Bool :=
  c = ' ' || c = '\t' || c = '\n' || c = '\r' || c = '\x0b' || c = '\x0c'

/-- Python regex word character (ASCII part of the w class): letters, digits,
underscore. -/
def isWordChar (c : Char) : Bool :=
  c.isAlphanum || c = '_'

/-- Case-insensitive prefix test: the pattern (already lowercase) matches the
start of the text after lowercasing, as re.IGNORECASE does for ASCII. -/
def ciStarts : List Char → List Char → Bool
  | [], _ => true
  | _ :: _, [] => false
  | p :: ps, c :: cs => (c.toLower = p) && ciStarts ps cs

/-- Contiguous-substring test, modelling the Python in operator on strings
and an unanchored re.search of a literal. -/
def hasSub (needle hay : List Char) : Bool :=
  hay.tails.any (fun t => needle.isPrefixOf t)

/-- Substring anchored at the start of a path segment: the regex form
(?:^|/)LIT, i.e. the literal at position 0 or right after a slash. -/
def atSegStart (needle hay : List Char) : Bool :=
  needle.isPrefixOf hay || hasSub ('/' :: needle) hay

/-- Final path segment: the characters after the last slash (the whole path
when it has no slash). -/
def lastSeg (l : List Char) : List Char :=
  (l.reverse.takeWhile (fun c => c ≠ '/')).reverse

/-- Decimal value of a digit run, as Python int() applied to the captured
group of consecutive digits. -/
def digitsToNat (ds : List Char) : Nat :=
  ds.foldl (fun a c => a * 10 + (c.toNat - 48)) 0

/-- Python "s or empty-string" idiom on an optional string. -/
def stringOrEmpty : Option String → String
  | none => ""
  | some s => s

/-- Python truthiness of an optional string: present and non-empty. -/
def truthyStr : Option String → Bool
  | none => false
  | some s => !s.isEmpty

/-- Python "x or d" on an optional string: the default replaces both a
missing and an empty value. -/
def pyOr (o : Option String) (d : String) : String :=
  match o with
  | none => d
  | some s => if s.isEmpty then d else s

/-! ### github_client.GitHubClient.parse_closes_keywords

The Python regex is
(?:close|closes|closed|fix|fixes|fixed|resolve|resolves|resolved)\s+#(\d+)
compiled with re.IGNORECASE and driven by finditer, which scans left to
right and resumes after the end of each match.  The translation scans the
character list; at each position the alternatives are tried in the order the
alternation lists them (Python backtracks into the alternation when the
tail \s+#\d+ fails), and a successful match consumes
keyword + whitespace-run + hash + digit-run characters. -/

/-- Keyword alternatives in the order of the alternation in the source. -/
def closesKeywords : List (List Char) :=
  ["close".toList, "closes".toList, "closed".toList,
   "fix".toList, "fixes".toList, "fixed".toList,
   "resolve".toList, "resolves".toList, "resolved".toList]

/-- Attempt one alternative at the current position: keyword, then one or
more whitespace characters, then a hash, then one or more digits.  Returns
the captured number and the total number of characters consumed. -/
def matchKeywordAt (kw : List Char) (l : List Char) : Option (Nat × Nat) :=
  if ciStarts kw l then
    let rest := l.drop kw.length
    let ws := rest.takeWhile isPySpace
    if ws.isEmpty then none
    else
      match rest.drop ws.length with
      | '#' :: rest2 =>
          let ds := rest2.takeWhile Char.isDigit
          if ds.isEmpty then none
          else some (digitsToNat ds, kw.length + ws.length + 1 + ds.length)
      | _ => none
  else none

/-- Try the keyword alternatives in order at the current position. -/
def matchClosesAt (l : List Char) : Option (Nat × Nat) :=
  closesKeywords.findSome? (fun kw => matchKeywordAt kw l)

/-- Finditer-style scan: on a match, resume after its end (a match always
consumes at least one character); otherwise advance one character.  Bounded
structurally by a fuel equal to the length of the text, which suffices since
every step consumes at least one character. -/
def parseClosesGo : Nat → List Char → List Nat
  | 0, _ => []
  | _ + 1, [] => []
  | fuel + 1, c :: rest =>
    match matchClosesAt (c :: rest) with
    | some (n, k) => n :: parseClosesGo fuel (rest.drop (k - 1))
    | none => parseClosesGo fuel rest

/-- All captured issue numbers, in order, duplicates kept (finditer yields a
list of matches, not a set). -/
def parseClosesList (l : List Char) : List Nat :=
  parseClosesGo l.length l

/-- GitHubClient.parse_closes_keywords from github_client.py: parse
closes/fixes/resolves hash-number references out of a PR body.  A missing or
empty body yields the empty list; the second parameter is accepted and
ignored exactly as in the source. -/
def parse_closes_keywords (body : Option String) (issue_number : Nat) : List Nat :=
  match body with
  | none => []
  | some b => parseClosesList b.toList

/-! ### analyzer.py closing-keyword search

The pattern built in IssueAnalyzer._find_linked_prs is
(?:close[sd]?|fix(?:e[sd])?|resolve[sd]?)\s*#NUM\b with re.IGNORECASE and
re.search, where NUM is the decimal text of the issue number.  Whitespace is
optional here (\s*), the number is a fixed literal, and the trailing word
boundary requires the character after the digits (if any) not to be a word
character. -/

/-- The nine expansions of the alternation close[sd]? | fix(?:e[sd])? |
resolve[sd]?.  For an existence test the order is irrelevant; the greedy
order of the optional suffixes is kept. -/
def closeVariants : List (List Char) :=
  ["closes".toList, "closed".toList, "close".toList,
   "fixes".toList, "fixed".toList, "fix".toList,
   "resolves".toList, "resolved".toList, "resolve".toList]

/-- Match the analyzer pattern at the current position: a keyword variant,
any run of whitespace, a hash, the literal digits of the issue number, and a
word boundary after them. -/
def matchClosePatternAt (digits : List Char) (l : List Char) : Bool :=
  closeVariants.any (fun kw =>
    if ciStarts kw l then
      match (l.drop kw.length).dropWhile isPySpace with
      | '#' :: rest2 =>
          digits.isPrefixOf rest2 &&
          (match rest2.drop digits.length with
           | [] => true
           | d :: _ => !isWordChar d)
      | _ => false
    else false)

/-- re.search of the analyzer pattern over the whole body: true when the
pattern matches at some position. -/
def searchClosePattern (body : List Char) (issue_number : Nat) : Bool :=
  body.tails.any (matchClosePatternAt (Nat.repr issue_number).toList)

/-! ### filters.py change classifier

classify_file lowercase-insensitively matches the path against three fixed
regex lists (test, doc, config) and records the .py extension check
(case-sensitive endswith in the source).  Each regex of the lists is simple
enough to translate to an anchored or unanchored substring or suffix
condition on the lowercased path; each definition below names the regex it
translates. -/

/-- TEST_FILE_PATTERNS of filters.py, applied to the lowercased path:
(?:^|/)tests?/ ; (?:^|/)test_[^/]+\.py$ ; (?:^|/)[^/]*_test\.py$ ;
(?:^|/)conftest\.py$ ; (?:^|/)testing/ ; (?:^|/)fixtures/ .
The second pattern constrains the final segment: it starts with test_, ends
with .py and has at least one character in between; the third is equivalent
to the path ending with _test.py since the literal contains no slash. -/
def matchesTestPat (l : List Char) : Bool :=
  (atSegStart "tests/".toList l || atSegStart "test/".toList l) ||
  ("test_".toList.isPrefixOf (lastSeg l) && ".py".toList.isSuffixOf (lastSeg l)
    && 9 ≤ (lastSeg l).length) ||
  ("_test.py".toList.isSuffixOf l) ||
  (lastSeg l = "conftest.py".toList) ||
  atSegStart "testing/".toList l ||
  atSegStart "fixtures/".toList l

/-- DOC_FILE_PATTERNS of filters.py, applied to the lowercased path:
(?:^|/)docs?/ ; (?:^|/)documentation/ ; \.(?:md|rst|txt|adoc)$ ;
(?:^|/)README ; (?:^|/)CHANGELOG ; (?:^|/)CONTRIBUTING ; (?:^|/)LICENSE ;
(?:^|/)HISTORY ; (?:^|/)AUTHORS . -/
def matchesDocPat (l : List Char) : Bool :=
  (atSegStart "docs/".toList l || atSegStart "doc/".toList l) ||
  atSegStart "documentation/".toList l ||
  (".md".toList.isSuffixOf l || ".rst".toList.isSuffixOf l ||
   ".txt".toList.isSuffixOf l || ".adoc".toList.isSuffixOf l) ||
  atSegStart "readme".toList l ||
  atSegStart "changelog".toList l ||
  atSegStart "contributing".toList l ||
  atSegStart "license".toList l ||
  atSegStart "history".toList l ||
  atSegStart "authors".toList l

/-- CONFIG_FILE_PATTERNS of filters.py, applied to the lowercased path:
\.(?:cfg|ini|toml|yaml|yml|json)$ ; (?:^|/)setup\.py$ ;
(?:^|/)pyproject\.toml$ ; (?:^|/)Makefile$ ; (?:^|/)Dockerfile ;
(?:^|/)\.github/ ; (?:^|/)tox\.ini$ . -/
def matchesConfigPat (l : List Char) : Bool :=
  (".cfg".toList.isSuffixOf l || ".ini".toList.isSuffixOf l ||
   ".toml".toList.isSuffixOf l || ".yaml".toList.isSuffixOf l ||
   ".yml".toList.isSuffixOf l || ".json".toList.isSuffixOf l) ||
  (lastSeg l = "setup.py".toList) ||
  (lastSeg l = "pyproject.toml".toList) ||
  (lastSeg l = "makefile".toList) ||
  atSegStart "dockerfile".toList l ||
  atSegStart ".github/".toList l ||
  (lastSeg l = "tox.ini".toList)

/-- FileChangeInfo of filters.py: a classified file change. -/
structure FileChangeInfo where
  filename : String
  additions : Nat := 0
  deletions : Nat := 0
  changes : Nat := 0
  status : String := ""
  is_python : Bool := false
  is_test : Bool := false
  is_doc : Bool := false
  is_config : Bool := false
deriving DecidableEq

/-- FileChangeInfo.is_code_python: python and not test and not doc and not
config. -/
def FileChangeInfo.is_code_python (f : FileChangeInfo) : Bool :=
  f.is_python && !f.is_test && !f.is_doc && !f.is_config

/-- FileChangeInfo.total_changes: additions plus deletions. -/
def FileChangeInfo.total_changes (f : FileChangeInfo) : Nat :=
  f.additions + f.deletions

/-- classify_file of filters.py: record the .py extension (case-sensitive
endswith) and match the three pattern lists case-insensitively. -/
def classify_file (filename : String) : FileChangeInfo :=
  let l := filename.toList.map Char.toLower
  { filename := filename
    is_python := ".py".toList.isSuffixOf filename.toList
    is_test := matchesTestPat l
    is_doc := matchesDocPat l
    is_config := matchesConfigPat l }

/-! ### issue_analyzer.py code-file test (config.py substring patterns)

This second, independent classifier lowercases the filename and checks plain
substring containment against tuples of literals from config.py; it has no
configuration category of its own. -/

/-- TEST_FILE_PATTERNS of config.py. -/
def configTestPats : List String :=
  ["test_", "_test", "tests/", "/test/", "conftest.py",
   "unittest", "pytest", "spec.py"]

/-- DOC_FILE_PATTERNS of config.py. -/
def configDocPats : List String :=
  ["readme", "changelog", "docs/", ".md", ".rst", ".txt",
   "license", "contributing", "setup.cfg", "pyproject.toml"]

/-- issue_analyzer _is_test_file: some test literal occurs in the lowercased
filename. -/
def is_test_file (filename : String) : Bool :=
  configTestPats.any (fun p => hasSub p.toList (filename.toList.map Char.toLower))

/-- issue_analyzer _is_doc_file: some doc literal occurs in the lowercased
filename. -/
def is_doc_file (filename : String) : Bool :=
  configDocPats.any (fun p => hasSub p.toList (filename.toList.map Char.toLower))

/-- issue_analyzer _is_code_python_file: a .py file that is neither a test
file nor a doc file under the config.py substring patterns. -/
def is_code_python_file (filename : String) : Bool :=
  ".py".toList.isSuffixOf filename.toList &&
  !is_test_file filename && !is_doc_file filename

/-! ### github_queries.get_single_closing_pr (GraphQL resolver)

The GraphQL response is a list of timeline nodes.  The Python loop keeps
only nodes of typename ClosedEvent whose closer block has typename
PullRequest together with an integer number and a string url; the shape
checks collapse to a sum type whose first constructor carries exactly the
fields the loop extracts. -/

/-- ClosingPullRequest dataclass of github_queries.py. -/
structure ClosingPullRequest where
  number : Nat
  url : String
  closes_issue_numbers : List Nat
deriving DecidableEq

/-- One node of the timelineItems list: either a ClosedEvent closed by a
well-formed PullRequest (number, url, closingIssuesReferences numbers), or
any other shape, which the loop skips. -/
inductive GraphQLTimelineNode where
  | closedEventPR (number : Nat) (url : String) (closes : List Nat)
  | otherNode
deriving DecidableEq

/-- get_single_closing_pr of github_queries.py: collect the ClosedEvent
pull-request closers, drop those with an empty closingIssuesReferences
list, demand exactly one survivor, and demand that its reference list is
exactly the queried issue number. -/
def get_single_closing_pr (nodes : List GraphQLTimelineNode)
    (issue_number : Nat) : Option ClosingPullRequest :=
  let closing_prs := nodes.filterMap (fun n =>
    match n with
    | .closedEventPR num url closes =>
        some { number := num, url := url, closes_issue_numbers := closes }
    | .otherNode => none)
  let closing_prs := closing_prs.filter
    (fun pr => !pr.closes_issue_numbers.isEmpty)
  match closing_prs with
  | [pr] => if pr.closes_issue_numbers = [issue_number] then some pr else none
  | _ => none

/-! ### analyzer.IssueAnalyzer._find_linked_prs (REST resolver, four
strategies)

The timeline is a list of REST events; the fields the loop reads from a
cross-referenced event are modelled directly (whether source.issue carries a
pull_request block, whether its html_url starts with the repository prefix,
the number parsed from that url, the state string, the merged_at value).
client.get_pull_request is a function from PR number to an optional payload,
and the search-API call is a list of result items. -/

/-- Fields of a cross-referenced timeline event that the loop reads. -/
structure TimelinePRRef where
  is_pull_request : Bool
  same_repo_url : Bool
  pr_number : Nat
  state : String
  merged_at : Option String
deriving DecidableEq

/-- One REST timeline event: a cross-referenced event, a closed event with
its commit_id, or anything else. -/
inductive RestTimelineEvent where
  | crossReferenced (src : TimelinePRRef)
  | closedEvent (commit_id : Option String)
  | otherEvent
deriving DecidableEq

/-- Pull-request payload fields read by the strategy loops. -/
structure PullData where
  merged : Bool
  merge_commit_sha : Option String
  body : Option String
deriving DecidableEq

/-- One item of the search-API fallback results. -/
structure SearchItem where
  number : Nat
  body : Option String
deriving DecidableEq

/-- Insert into a sorted duplicate-free list of numbers; folding this over
the collected numbers models the Python idiom sorted(set(...)). -/
def insertSorted (n : Nat) : List Nat → List Nat
  | [] => [n]
  | m :: rest =>
      if n < m then n :: m :: rest
      else if n = m then m :: rest
      else m :: insertSorted n rest

/-- sorted(set(l)). -/
def sortedDedup (l : List Nat) : List Nat :=
  l.foldl (fun acc n => insertSorted n acc) []

/-- The same_repo_prs set of _find_linked_prs: numbers of cross-referenced
same-repository pull requests that are closed and merged, sorted as the
strategy loops iterate them. -/
def same_repo_prs (timeline : List RestTimelineEvent) : List Nat :=
  sortedDedup (timeline.filterMap (fun e =>
    match e with
    | .crossReferenced src =>
        if src.is_pull_request && src.same_repo_url
            && src.state = "closed" && truthyStr src.merged_at
        then some src.pr_number else none
    | _ => none))

/-- The closing_commit_id variable: the last truthy commit_id seen on a
closed event (None and the empty string are falsy). -/
def closingCommitId (timeline : List RestTimelineEvent) : Option String :=
  timeline.foldl (fun acc e =>
    match e with
    | .closedEvent (some s) => if s.isEmpty then acc else some s
    | _ => acc) none

/-- Strategy 1: walk the sorted candidates and take the first merged pull
request whose merge_commit_sha equals the closing commit id (the loop breaks
after the first append). -/
def strategy1 (prs : List Nat) (prdb : Nat → Option PullData)
    (cid : String) : List Nat :=
  (prs.find? (fun num =>
    match prdb num with
    | some pd => pd.merged && pd.merge_commit_sha = some cid
    | none => false)).toList

/-- Strategy 2: keep every merged candidate whose body matches the
closing-keyword pattern for this issue (no break: all matches are kept). -/
def strategy2 (prs : List Nat) (prdb : Nat → Option PullData)
    (issue_number : Nat) : List Nat :=
  prs.filter (fun num =>
    match prdb num with
    | some pd =>
        pd.merged && searchClosePattern (stringOrEmpty pd.body).toList issue_number
    | none => false)

/-- Strategy 3: keep every merged cross-referenced candidate. -/
def strategy3 (prs : List Nat) (prdb : Nat → Option PullData) : List Nat :=
  prs.filter (fun num =>
    match prdb num with
    | some pd => pd.merged
    | none => false)

/-- Strategy 4: search-API items whose body matches the closing-keyword
pattern. -/
def strategy4 (items : List SearchItem) (issue_number : Nat) : List Nat :=
  (items.filter (fun it =>
    searchClosePattern (stringOrEmpty it.body).toList issue_number)).map
    (fun it => it.number)

/-- list(dict.fromkeys(l)): deduplicate keeping first occurrences. -/
def dedupeFirstAux : List Nat → List Nat → List Nat
  | _, [] => []
  | seen, n :: rest =>
      if n ∈ seen then dedupeFirstAux seen rest
      else n :: dedupeFirstAux (n :: seen) rest

/-- Deduplicate a number list preserving first-occurrence order. -/
def dedupeFirst (l : List Nat) : List Nat :=
  dedupeFirstAux [] l

/-- _find_linked_prs of analyzer.py: collect same-repository candidates and
the closing commit id from the timeline, then run the four strategies with
the guards of the source (each later strategy only when the accumulated list
is still empty, strategies 1 to 3 also only when candidates exist), and
finally deduplicate preserving order. -/
def find_linked_prs (timeline : List RestTimelineEvent)
    (prdb : Nat → Option PullData) (searchItems : List SearchItem)
    (issue_number : Nat) : List Nat :=
  let prs := same_repo_prs timeline
  let merged1 :=
    match closingCommitId timeline with
    | some cid => if !prs.isEmpty then strategy1 prs prdb cid else []
    | none => []
  let merged2 :=
    if merged1.isEmpty && !prs.isEmpty then strategy2 prs prdb issue_number
    else merged1
  let merged3 :=
    if merged2.isEmpty && !prs.isEmpty then strategy3 prs prdb
    else merged2
  let merged4 :=
    if merged3.isEmpty then strategy4 searchItems issue_number
    else merged3
  dedupeFirst merged4

/-! ### issue_analyzer.IssueAnalyzer.analyze_issue, one-way selection loop

Step 4 of analyze_issue walks the linked pull requests in order, parses each
body with parse_closes_keywords, skips a pull request whose reference list
does not contain the issue number, skips (with a reason) one whose list has
more than one entry, and keeps the first survivor. -/

/-- The selection loop over (pull number, body) pairs: the first pull
request whose parsed closing list both contains the issue number and has at
most one entry wins; if none survives the analysis reports no one-way
closing pull request. -/
def select_one_way_pr : List (Nat × String) → Nat → Option Nat
  | [], _ => none
  | (num, body) :: rest, issue_number =>
      let closes := parse_closes_keywords (some body) issue_number
      if issue_number ∈ closes then
        if 1 < closes.length then select_one_way_pr rest issue_number
        else some num
      else select_one_way_pr rest issue_number

/-! ### finder.IssueFinder._analyze_issue, linkage-resolution segment

Lines 188 to 218 of finder.py: after the candidate pull numbers are
collected from timeline and search, an empty candidate list is rejected
with the counter key linked_pull_count; otherwise each candidate is
fetched (a fetch error counts pull_fetch and skips it), unmerged payloads
are skipped, and a payload is valid when the closing references extracted
from its body are exactly the singleton list of the issue number; any
number of valid payloads other than one is rejected with the counter key
pull_match_count.  The extraction function extract_closing_issue_numbers is
imported by finder.py from filters but is not present under src, so it is
passed here as a parameter. -/

/-- Pull-request payload fields read by the finder segment. -/
structure FinderPull where
  number : Nat
  merged_at : Option String
  body : Option String
deriving DecidableEq

/-- The valid_pull_payloads accumulation loop of finder._analyze_issue. -/
def valid_pull_payloads (closingRefs : String → List Nat)
    (pull_numbers : List Nat) (pullFetch : Nat → Option FinderPull)
    (issue_number : Nat) : List FinderPull :=
  pull_numbers.filterMap (fun num =>
    match pullFetch num with
    | none => none
    | some p =>
        if p.merged_at = none then none
        else if closingRefs (stringOrEmpty p.body) = [issue_number] then some p
        else none)

/-- The rejection structure of the finder segment: an empty candidate list
is the reason linked_pull_count, a valid-payload count different from one is
the reason pull_match_count, and exactly one valid payload succeeds. -/
def resolve_closing_pull (closingRefs : String → List Nat)
    (pull_numbers : List Nat) (pullFetch : Nat → Option FinderPull)
    (issue_number : Nat) : Except String FinderPull :=
  if pull_numbers.isEmpty then .error "linked_pull_count"
  else
    match valid_pull_payloads closingRefs pull_numbers pullFetch issue_number with
    | [p] => .ok p
    | _ => .error "pull_match_count"

/-! ### cache.CacheStore.get and async_client.AsyncGitHubClient.get_repo_info

The disk store is modelled as a function from namespace and key to an
optional entry carrying the absolute expiry time and the stored payload;
time.time() is the explicit now argument.  A missing file, an expired entry
and an undecodable entry all read as a miss, exactly as in cache.get.
get_repo_info reads the repo_info namespace, reconstructs a RepoInfo from a
hit, and otherwise falls through to the upstream JSON (an optional payload:
a non-200 status, malformed JSON and a falsy body all arrive as none). -/

/-- One cache entry: absolute expiry timestamp and payload. -/
structure CacheEntry (α : Type) where
  expires_at : ℚ
  data : α

/-- CacheStore.get of cache.py: a disabled store always misses; otherwise a
missing entry misses, an entry with now strictly past its expiry is purged
and misses, and a live entry returns its data. -/
def cache_get {α : Type} (enabled : Bool)
    (store : String → String → Option (CacheEntry α)) (now : ℚ)
    (namespace_ key : String) : Option α :=
  if !enabled then none
  else
    match store namespace_ key with
    | none => none
    | some e => if e.expires_at < now then none else some e.data

/-- RepoInfo dataclass of github_client.py (the fields cached and rebuilt by
the async client). -/
structure RepoInfo where
  full_name : String
  stars : Nat
  size_kb : Nat
  language : String
  default_branch : String
  html_url : String
  description : Option String
  pushed_at : Option String
deriving DecidableEq

/-- The serialized dictionary written by AsyncGitHubClient._repo_dict; it
mirrors the eight RepoInfo fields key for key. -/
structure RepoDict where
  full_name : String
  stars : Nat
  size_kb : Nat
  language : String
  default_branch : String
  html_url : String
  description : Option String
  pushed_at : Option String
deriving DecidableEq

/-- _repo_dict: serialize a RepoInfo for the cache. -/
def repo_dict (r : RepoInfo) : RepoDict :=
  { full_name := r.full_name, stars := r.stars, size_kb := r.size_kb
    language := r.language, default_branch := r.default_branch
    html_url := r.html_url, description := r.description
    pushed_at := r.pushed_at }

/-- RepoInfo(**cached): rebuild a RepoInfo from a cached dictionary. -/
def repoInfoOfDict (d : RepoDict) : RepoInfo :=
  { full_name := d.full_name, stars := d.stars, size_kb := d.size_kb
    language := d.language, default_branch := d.default_branch
    html_url := d.html_url, description := d.description
    pushed_at := d.pushed_at }

/-- The JSON fields get_repo_info reads from the upstream repository
payload; absent keys and JSON null both arrive as none. -/
structure ApiRepoPayload where
  full_name : Option String
  stargazers_count : Option Nat
  size : Option Nat
  language : Option String
  default_branch : Option String
  html_url : Option String
  description : Option String
  pushed_at : Option String
deriving DecidableEq

/-- The RepoInfo constructed from a fresh upstream payload, default for
default as in the source (full_name falls back to the argument, counts to
zero, language to the empty string, default_branch to main, html_url to the
github page of the repository). -/
def mkRepoInfo (full_name : String) (d : ApiRepoPayload) : RepoInfo :=
  { full_name := d.full_name.getD full_name
    stars := d.stargazers_count.getD 0
    size_kb := d.size.getD 0
    language := pyOr d.language ""
    default_branch := pyOr d.default_branch "main"
    html_url := d.html_url.getD ("https://github.com/" ++ full_name)
    description := d.description
    pushed_at := d.pushed_at }

/-- get_repo_info of async_client.py, value level: a cache hit is rebuilt
and returned; otherwise a missing upstream payload returns none and a
present one is converted (the subsequent cache.set only mutates the store
and does not affect the returned value). -/
def get_repo_info (enabled : Bool)
    (store : String → String → Option (CacheEntry RepoDict)) (now : ℚ)
    (full_name : String) (upstream : Option ApiRepoPayload) : Option RepoInfo :=
  match cache_get enabled store now "repo_info" full_name with
  | some d => some (repoInfoOfDict d)
  | none =>
      match upstream with
      | none => none
      | some data => some (mkRepoInfo full_name data)

/-! ### scoring.score_candidate

The float arithmetic of the source is carried out exactly over the
rationals.  The square root applied to the clamped star count has no exact
rational counterpart, so the model receives it as an explicit function
argument; every use in the claims holds the star count fixed, and the
function is applied exactly where the source applies ** 0.5. -/

/-- PrChangeStats dataclass of scoring.py. -/
structure PrChangeStats where
  changed_py_files : Nat
  changed_non_test_doc_py_files : Nat
  total_changes_non_test_doc_py : Nat
  max_file_changes_non_test_doc_py : Nat
  top_changed_files : List String
deriving DecidableEq

/-- score_candidate of scoring.py: clamped file, churn, concentration and
issue-length terms, a diminishing-returns star term (sqrtFn stands for the
float square root), and a soft size penalty above 120 MB. -/
def score_candidate (sqrtFn : Nat → ℚ) (stars : Nat) (size_mb : ℚ)
    (issue_body_len : Int) (stats : PrChangeStats) : ℚ :=
  let file_score : ℚ := (min stats.changed_non_test_doc_py_files 12 : Nat) * 10
  let churn_score : ℚ := (min stats.total_changes_non_test_doc_py 1200 : Nat) / 10
  let concentration_score : ℚ :=
    (min stats.max_file_changes_non_test_doc_py 500 : Nat) / 5
  let issue_score : ℚ := ((min (max issue_body_len 0) 4000 : Int) : ℚ) / 200
  let stars_score : ℚ := sqrtFn (min stars 50000)
  let size_penalty : ℚ := if 120 < size_mb then (size_mb - 120) * (3 / 2) else 0
  file_score + churn_score + concentration_score + issue_score
    + stars_score / 3 - size_penalty

/-! ### scoring.score_complexity

finder.py imports score_complexity from the scoring module and
tests/test_scoring.py exercises it, but its definition is not under src
(the scoring.py present holds the score_candidate variant instead), so the
function is reconstructed from the specification. -/

/-- ComplexityBreakdown dataclass of models.py. -/
structure ComplexityBreakdown where
  score : ℚ
  label : String
  files_component : ℚ
  changes_component : ℚ
  commits_component : ℚ
  max_file_component : ℚ
  issue_body_component : ℚ
deriving DecidableEq

/-- Rounding to two decimal places. -/
def round2 (q : ℚ) : ℚ :=
  ((round (q * 100) : ℤ) : ℚ) / 100

/-- Modelled from the spec: score_complexity is imported by finder.py and
exercised by tests/test_scoring.py but its definition is missing from src.
Following the specification, each of the five sub-scores (file count, total
churn, commit count, largest single-file churn, issue body length) is a
monotone linear function of its input clamped to a fixed ceiling, the total
is their arithmetic sum rounded to two decimal places, and the coarse label
comes from fixed thresholds.  The constants are chosen consistently with
the label boundaries asserted in tests/test_scoring.py and the default
minimum score 50 of FinderConfig. -/
def score_complexity (python_non_test_files_changed : Nat)
    (total_python_changes : Nat) (pr_commits : Nat)
    (max_single_python_file_changes : Nat) (issue_body_length : Nat) :
    ComplexityBreakdown :=
  let files_component : ℚ := min ((python_non_test_files_changed : ℚ) * 4) 40
  let changes_component : ℚ := min ((total_python_changes : ℚ) / 20) 30
  let commits_component : ℚ := min ((pr_commits : ℚ) * 3) 15
  let max_file_component : ℚ := min ((max_single_python_file_changes : ℚ) / 10) 25
  let issue_body_component : ℚ := min ((issue_body_length : ℚ) / 50) 15
  let total := files_component + changes_component + commits_component
    + max_file_component + issue_body_component
  let score := round2 total
  { score := score
    label := if 90 ≤ score then "high" else if 50 ≤ score then "medium" else "low"
    files_component := files_component
    changes_component := changes_component
    commits_component := commits_component
    max_file_component := max_file_component
    issue_body_component := issue_body_component }

/-! ### Transport retry loops

Each transport is modelled as a function of the per-attempt outcome stream
(attempt index to outcome); sleeps do not affect the returned value and are
dropped.  The async client returns the sentinel triple (here the pair of
status zero and empty body, the headers dictionary being elided) instead of
raising; the scraper re-raises the final request exception; the REST client
raises GitHubAPIError subclasses.  Raised exceptions are modelled as the
error side of Except. -/

/-- One attempt outcome inside async_client._get: an HTTP response with its
status and body (the Retry-After value already parsed), or an
aiohttp.ClientError / asyncio.TimeoutError. -/
inductive HttpAttempt where
  | response (status : Nat) (body : String) (retryAfter : Nat)
  | transient
deriving DecidableEq

/-- The attempt loop of async_client._get: up to three attempts, a 429
sleeps and retries, a transient error on the last attempt returns the
typed sentinel (0, empty) as does falling off the end of the loop. -/
def async_get_go (outcome : Nat → HttpAttempt) : Nat → Nat → Nat × String
  | _, 0 => (0, "")
  | attempt, remaining + 1 =>
      match outcome attempt with
      | .response 429 _ _ => async_get_go outcome (attempt + 1) remaining
      | .response s b _ => (s, b)
      | .transient =>
          if attempt = 2 then (0, "")
          else async_get_go outcome (attempt + 1) remaining

/-- async_client._get for a given outcome stream (range(3) attempts). -/
def async_get (outcome : Nat → HttpAttempt) : Nat × String :=
  async_get_go outcome 0 3

/-- One attempt outcome inside scraper._get: a response, or a
requests.RequestException. -/
inductive SyncAttempt where
  | response (status : Nat) (body : String) (retryAfter : Nat)
  | requestException
deriving DecidableEq

/-- The exceptions scraper._get can raise: the re-raised request exception
on the final attempt, or the RuntimeError after the loop. -/
inductive ScraperError where
  | reraised
  | failedAfterRetries
deriving DecidableEq

/-- The attempt loop of scraper._get: up to three attempts, a 429 sleeps
and retries, a request exception on the last attempt is re-raised, and
exhausting the loop raises RuntimeError. -/
def scraper_get_go (outcome : Nat → SyncAttempt) :
    Nat → Nat → Except ScraperError (Nat × String)
  | _, 0 => .error .failedAfterRetries
  | attempt, remaining + 1 =>
      match outcome attempt with
      | .response 429 _ _ => scraper_get_go outcome (attempt + 1) remaining
      | .response s b _ => .ok (s, b)
      | .requestException =>
          if attempt = 2 then .error .reraised
          else scraper_get_go outcome (attempt + 1) remaining

/-- scraper._get for a given outcome stream (range(3) attempts). -/
def scraper_get (outcome : Nat → SyncAttempt) :
    Except ScraperError (Nat × String) :=
  scraper_get_go outcome 0 3

/-- One attempt outcome inside github_api.GitHubClient._request: a
successful response, a rate-limited 403, a 404, an error status that
raise_for_status turns into an HTTPError (caught as a RequestException),
or a plain request exception. -/
inductive ApiAttempt where
  | okResponse (status : Nat) (body : String)
  | rateLimited403
  | notFound404
  | httpErrorStatus (status : Nat)
  | requestException
deriving DecidableEq

/-- The GitHubAPIError exceptions _request can raise. -/
inductive ApiError where
  | rateLimitExceeded
  | requestFailed
  | maxRetriesExceeded
deriving DecidableEq

/-- The attempt loop of github_api._request with retries = 3 (range(4)
attempts): a rate-limited 403 retries while attempt < 3 and then raises
RateLimitExceeded, a 404 is returned as a response, an error status or
request exception retries while attempt < 3 and then raises GitHubAPIError,
and the unreachable fall-through raises GitHubAPIError as well. -/
def api_request_go (outcome : Nat → ApiAttempt) :
    Nat → Nat → Except ApiError (Nat × String)
  | _, 0 => .error .maxRetriesExceeded
  | attempt, remaining + 1 =>
      match outcome attempt with
      | .okResponse s b => .ok (s, b)
      | .notFound404 => .ok (404, "")
      | .rateLimited403 =>
          if attempt < 3 then api_request_go outcome (attempt + 1) remaining
          else .error .rateLimitExceeded
      | .httpErrorStatus _ =>
          if attempt < 3 then api_request_go outcome (attempt + 1) remaining
          else .error .requestFailed
      | .requestException =>
          if attempt < 3 then api_request_go outcome (attempt + 1) remaining
          else .error .requestFailed

/-- github_api._request for a given outcome stream (range(4) attempts). -/
def api_request (outcome : Nat → ApiAttempt) : Except ApiError (Nat × String) :=
  api_request_go outcome 0 4

/-! ### Adaptive throttle, async_client._get lines 96 to 115

Sequential dispatches through the throttle are modelled as an exact timing
trace.  The state is the last-request marker; before each dispatch the
clock is read (the marker plus a non-negative processing gap a), the
elapsed time is compared with the configured minimum interval d, and when
it is smaller the caller sleeps for the remainder, so the dispatch happens
at the clock value after the sleep; after the response (a non-negative
duration r later) the marker is set to the response time.  Sleeping exactly
the requested amount and adding explicit non-negative gaps covers every
real schedule, since oversleeping only grows the gaps of later requests. -/

/-- Dispatch times of a sequence of throttled requests: d is the minimum
inter-request interval, last the initial last-request marker, and each pair
(a, r) of the list gives the gap from the marker to the pre-throttle clock
read and the duration until the response for one request. -/
def throttle_dispatches (d : ℚ) : ℚ → List (ℚ × ℚ) → List ℚ
  | _, [] => []
  | last, (a, r) :: rest =>
      let now := last + a
      let elapsed := now - last
      let dispatch := if elapsed < d then now + (d - elapsed) else now
      dispatch :: throttle_dispatches d (dispatch + r) rest

/-! ## Theorems -/

/-- Serialization round trip: rebuilding a RepoInfo from its cached
dictionary restores it unchanged. -/
theorem repoInfoOfDict_repo_dict (r : RepoInfo) :
    repoInfoOfDict (repo_dict r) = r := rfl

/-- find? agrees on predicates that agree on the list. -/
theorem find_eq_of_agree {α : Type} (p q : α → Bool) (l : List α)
    (h : ∀ a ∈ l, p a = q a) : l.find? p = l.find? q := by
  induction l with
  | nil => rfl
  | cons a rest ih =>
      simp only [List.find?]
      rw [h a (List.mem_cons_self a rest)]
      cases q a
      · exact ih (fun x hx => h x (List.mem_cons_of_mem _ hx))
      · rfl

/-- C1.  For every resolution of (repository, issue_number) by the GraphQL
resolver, a pull request is returned as the valid closing linkage only if
the issue numbers implied by its closing references are exactly the
singleton of the queried issue number; a candidate with an empty or
different reference list is never returned. -/
theorem one_way_closure_graphql (nodes : List GraphQLTimelineNode)
    (issue_number : Nat) (pr : ClosingPullRequest)
    (h : get_single_closing_pr nodes issue_number = some pr) :
    pr.closes_issue_numbers = [issue_number] := by
  unfold get_single_closing_pr at h
  dsimp only at h
  split at h
  · split at h
    · cases h
      assumption
    · exact absurd h (by simp)
  · exact absurd h (by simp)

/-- Witness for C1: a concrete timeline with a single closer referencing
exactly the queried issue resolves to that pull request, and the theorem
yields its closing list. -/
theorem one_way_closure_graphql_witness :
    ({ number := 51, url := "https://github.com/o/r/pull/51",
       closes_issue_numbers := [50] } : ClosingPullRequest).closes_issue_numbers
      = [50] :=
  one_way_closure_graphql
    [GraphQLTimelineNode.closedEventPR 51 "https://github.com/o/r/pull/51" [50]]
    50 _ (by decide)

/-- C9.  The change classifier is mutually exclusive with respect to code:
a path classified as test, documentation or configuration is never counted
as a code file, and a path counts as code exactly when it carries the .py
extension and matches none of the test, documentation or configuration
patterns; the second classifier variant of issue_analyzer.py counts a path
as code exactly when it is a .py file matching none of its test and doc
substring patterns (that variant has no configuration category). -/
theorem classifier_code_exclusive (path : String) :
    ((classify_file path).is_code_python &&
      ((classify_file path).is_test || (classify_file path).is_doc ||
        (classify_file path).is_config)) = false ∧
    (classify_file path).is_code_python =
      (".py".toList.isSuffixOf path.toList &&
        !matchesTestPat (path.toList.map Char.toLower) &&
        !matchesDocPat (path.toList.map Char.toLower) &&
        !matchesConfigPat (path.toList.map Char.toLower)) ∧
    is_code_python_file path =
      (".py".toList.isSuffixOf path.toList &&
        !is_test_file path && !is_doc_file path) := by
  refine ⟨?_, rfl, rfl⟩
  simp only [classify_file, FileChangeInfo.is_code_python]
  cases matchesTestPat (path.toList.map Char.toLower) <;>
    cases matchesDocPat (path.toList.map Char.toLower) <;>
      cases matchesConfigPat (path.toList.map Char.toLower) <;> simp

/-- C10.  The one-way check operates on the list of extracted closing
references, not the set of distinct numbers: a body repeating a closing
reference to the same issue parses to a list of length two, and the
selection loop of issue_analyzer.analyze_issue disqualifies every pull
request whose parsed list has two or more entries, reporting no one-way
closing pull request. -/
theorem duplicate_close_refs_disqualify :
    parse_closes_keywords (some "Fixes #10 and more. Fixes #10") 10 = [10, 10] ∧
    ∀ (prs : List (Nat × String)) (issue_number : Nat),
      (∀ pr ∈ prs, 2 ≤ (parse_closes_keywords (some pr.2) issue_number).length) →
      select_one_way_pr prs issue_number = none := by
  refine ⟨by decide, ?_⟩
  intro prs issue_number h
  induction prs with
  | nil => rfl
  | cons p rest ih =>
      obtain ⟨num, body⟩ := p
      have h1 : 2 ≤ (parse_closes_keywords (some body) issue_number).length :=
        h _ (List.mem_cons_self _ _)
      have ih2 := ih (fun pr hpr => h pr (List.mem_cons_of_mem _ hpr))
      simp only [select_one_way_pr]
      split
      · rw [if_pos (by omega)]
        exact ih2
      · exact ih2

/-- Witness for C10: a concrete pull request whose body closes issue 10
twice is rejected by the selection loop. -/
theorem duplicate_close_refs_disqualify_witness :
    select_one_way_pr [(60, "Fixes #10 and more. Fixes #10")] 10 = none :=
  duplicate_close_refs_disqualify.2 [(60, "Fixes #10 and more. Fixes #10")] 10
    (by decide)

/-- C3 counterexample.  The claim that an ambiguity failure always carries a
different failure reason from an absence failure is false on the code: the
GraphQL resolver returns the same bare None for an issue with two
conflicting pull-request closers and for an issue with no closer at all,
and the finder segment emits the same counter key pull_match_count both
when several fetched candidates validly close the issue (ambiguity) and
when candidates exist but none validly closes it (absence of a valid
closer). -/
theorem ambiguity_absence_counterexample :
    get_single_closing_pr
        [GraphQLTimelineNode.closedEventPR 60 "https://github.com/o/r/pull/60" [10, 11],
         GraphQLTimelineNode.closedEventPR 61 "https://github.com/o/r/pull/61" [10]]
        10 = none ∧
    get_single_closing_pr [] 10 = none ∧
    resolve_closing_pull (fun b => parseClosesList b.toList) [60, 61]
        (fun num =>
          if num = 60 then
            some { number := 60, merged_at := some "2024-01-01", body := some "Fixes #10" }
          else if num = 61 then
            some { number := 61, merged_at := some "2024-01-02", body := some "Fixes #10" }
          else none)
        10 = .error "pull_match_count" ∧
    resolve_closing_pull (fun b => parseClosesList b.toList) [62]
        (fun num =>
          if num = 62 then
            some { number := 62, merged_at := some "2024-01-03", body := some "refactor" }
          else none)
        10 = .error "pull_match_count" := by
  refine ⟨by decide, by decide, rfl, rfl⟩

/-- C3 amended.  Within the finder pipeline the total absence of candidate
pull numbers carries the reason linked_pull_count while a non-unique set of
validly closing payloads (zero or several) carries the distinct reason
pull_match_count; the finer distinction between zero valid payloads and
several valid payloads, and any distinction at all in the GraphQL resolver,
are not provided. -/
theorem finder_reason_distinction (closingRefs : String → List Nat)
    (pullFetch : Nat → Option FinderPull) (issue_number : Nat)
    (pull_numbers : List Nat) :
    resolve_closing_pull closingRefs [] pullFetch issue_number
        = .error "linked_pull_count" ∧
    ("linked_pull_count" : String) ≠ "pull_match_count" ∧
    (pull_numbers.isEmpty = false →
      (valid_pull_payloads closingRefs pull_numbers pullFetch issue_number).length ≠ 1 →
      resolve_closing_pull closingRefs pull_numbers pullFetch issue_number
        = .error "pull_match_count") := by
  refine ⟨rfl, by decide, ?_⟩
  intro hne hlen
  unfold resolve_closing_pull
  rw [hne]
  simp only [Bool.false_eq_true, if_false]
  match hv : valid_pull_payloads closingRefs pull_numbers pullFetch issue_number with
  | [] => rfl
  | [p] => exact absurd (by simp [hv]) hlen
  | _ :: _ :: _ => rfl

/-- Witness for the amended C3: two validly closing candidates produce the
pull_match_count reason. -/
theorem finder_reason_distinction_witness :
    resolve_closing_pull (fun _ => [10]) [60, 61]
        (fun num =>
          if num = 60 then
            some { number := 60, merged_at := some "2024-01-01", body := some "x" }
          else if num = 61 then
            some { number := 61, merged_at := some "2024-01-02", body := some "y" }
          else none)
        10 = .error "pull_match_count" :=
  (finder_reason_distinction (fun _ => [10])
      (fun num =>
        if num = 60 then
          some { number := 60, merged_at := some "2024-01-01", body := some "x" }
        else if num = 61 then
          some { number := 61, merged_at := some "2024-01-02", body := some "y" }
        else none)
      10 [60, 61]).2.2 (by decide) (by decide)

/-- C7 counterexample.  The claim that the transport always returns a typed
failure value and never lets an exception escape is false for two of the
three transports: when every attempt raises a request exception, the
scraper re-raises the exception after its retry budget and the REST client
raises GitHubAPIError after its retries. -/
theorem transport_raises_counterexample :
    scraper_get (fun _ => SyncAttempt.requestException)
        = .error ScraperError.reraised ∧
    api_request (fun _ => ApiAttempt.requestException)
        = .error ApiError.requestFailed := by
  exact ⟨rfl, rfl⟩

/-- C7 amended.  When transient failures exhaust the retry budget, the
async transport returns the typed sentinel value (status 0 and an empty
body) without raising, while the scraper transport re-raises the final
request exception and the REST transport raises GitHubAPIError, so those
two let a typed exception escape the transport layer. -/
theorem retry_exhaustion_outcomes (o1 : Nat → HttpAttempt)
    (o2 : Nat → SyncAttempt) (o3 : Nat → ApiAttempt)
    (h1 : ∀ i, o1 i = HttpAttempt.transient)
    (h2 : ∀ i, o2 i = SyncAttempt.requestException)
    (h3 : ∀ i, o3 i = ApiAttempt.requestException) :
    async_get o1 = (0, "") ∧
    scraper_get o2 = .error ScraperError.reraised ∧
    api_request o3 = .error ApiError.requestFailed := by
  refine ⟨?_, ?_, ?_⟩
  · simp [async_get, async_get_go, h1]
  · simp [scraper_get, scraper_get_go, h2]
  · simp [api_request, api_request_go, h3]

/-- Witness for the amended C7: constant all-transient outcome streams. -/
theorem retry_exhaustion_outcomes_witness :
    async_get (fun _ => HttpAttempt.transient) = (0, "") ∧
    scraper_get (fun _ => SyncAttempt.requestException)
        = .error ScraperError.reraised ∧
    api_request (fun _ => ApiAttempt.requestException)
        = .error ApiError.requestFailed :=
  retry_exhaustion_outcomes _ _ _ (fun _ => rfl) (fun _ => rfl) (fun _ => rfl)

/-- C2.  Strategy precedence in the REST resolver: whenever the closing
commit id is present and strategy 1 selects a pull request, the resolver
returns exactly that pull request; moreover the result is unchanged under
any replacement of the search results and any replacement of the
pull-request database that preserves the merged flags and merge-commit
SHAs (the fields strategy 1 reads), so the bodies and search data of the
later strategies are never consulted. -/
theorem strategy_precedence (timeline : List RestTimelineEvent)
    (prdb : Nat → Option PullData) (searchItems : List SearchItem)
    (issue_number : Nat) (cid : String) (p : Nat)
    (hc : closingCommitId timeline = some cid)
    (h1 : strategy1 (same_repo_prs timeline) prdb cid = [p]) :
    find_linked_prs timeline prdb searchItems issue_number = [p] ∧
    ∀ (searchItems2 : List SearchItem) (prdb2 : Nat → Option PullData),
      (∀ k, (prdb2 k).map PullData.merged = (prdb k).map PullData.merged ∧
        (prdb2 k).bind PullData.merge_commit_sha
          = (prdb k).bind PullData.merge_commit_sha) →
      find_linked_prs timeline prdb2 searchItems2 issue_number = [p] := by
  have hne : (same_repo_prs timeline).isEmpty = false := by
    cases hp : same_repo_prs timeline with
    | nil => rw [hp] at h1; simp [strategy1] at h1
    | cons a rest => simp
  have key : ∀ (prdbX : Nat → Option PullData) (itemsX : List SearchItem),
      strategy1 (same_repo_prs timeline) prdbX cid = [p] →
      find_linked_prs timeline prdbX itemsX issue_number = [p] := by
    intro prdbX itemsX hX
    unfold find_linked_prs
    rw [hc]
    simp [hne, hX, dedupeFirst, dedupeFirstAux]
  refine ⟨key prdb searchItems h1, ?_⟩
  intro searchItems2 prdb2 hagree
  apply key
  have heq : strategy1 (same_repo_prs timeline) prdb2 cid
      = strategy1 (same_repo_prs timeline) prdb cid := by
    unfold strategy1
    apply congrArg
    apply find_eq_of_agree
    intro a _
    obtain ⟨hm, hs⟩ := hagree a
    cases e1 : prdb a with
    | none =>
        cases e2 : prdb2 a with
        | none => rfl
        | some pd2 => rw [e1, e2] at hm; simp at hm
    | some pd =>
        cases e2 : prdb2 a with
        | none => rw [e1, e2] at hm; simp at hm
        | some pd2 =>
            rw [e1, e2] at hm hs
            have hm2 : pd2.merged = pd.merged := by simpa using hm
            have hs2 : pd2.merge_commit_sha = pd.merge_commit_sha := by
              simpa using hs
            simp only [hm2, hs2]
  rw [heq]
  exact h1

/-- Witness for C2: a timeline holding one merged cross-referenced pull
request and a closing commit whose SHA equals that pull request's merge
commit, with a body that would also satisfy strategy 2; the resolver
reports the strategy-1 outcome. -/
theorem strategy_precedence_witness :
    find_linked_prs
        [RestTimelineEvent.crossReferenced
          { is_pull_request := true, same_repo_url := true, pr_number := 51,
            state := "closed", merged_at := some "2024-01-05" },
         RestTimelineEvent.closedEvent (some "abc123")]
        (fun k => if k = 51 then
            some { merged := true, merge_commit_sha := some "abc123",
                   body := some "Fixes #50" } else none)
        [] 50 = [51] :=
  (strategy_precedence _ _ _ 50 "abc123" 51 (by decide) (by decide)).1

/-- C4.  Cache transparency: a disabled cache always reads as a miss, and
the repository-info caller returns the same value with the cache disabled
as with any cache whose entry for the key is absent, expired, or the
serialization of the very value the fresh fetch would produce, so cache
state never changes the produced record. -/
theorem cache_transparency :
    (∀ (α : Type) (store : String → String → Option (CacheEntry α)) (now : ℚ)
        (namespace_ key : String),
      cache_get false store now namespace_ key = none) ∧
    ∀ (store : String → String → Option (CacheEntry RepoDict)) (now : ℚ)
        (full_name : String) (upstream : Option ApiRepoPayload),
      (∀ d, cache_get true store now "repo_info" full_name = some d →
        ∃ a, upstream = some a ∧ d = repo_dict (mkRepoInfo full_name a)) →
      get_repo_info true store now full_name upstream
        = get_repo_info false store now full_name upstream := by
  constructor
  · intro α store now namespace_ key
    rfl
  · intro store now full_name upstream hcons
    unfold get_repo_info
    cases hc : cache_get true store now "repo_info" full_name with
    | none => rfl
    | some d =>
        obtain ⟨a, ha, hd⟩ := hcons d hc
        subst ha
        subst hd
        rfl

/-- Witness for C4: a store warmed with the serialization of the fresh
result for the key yields the same repository record as the disabled
cache. -/
theorem cache_transparency_witness :
    get_repo_info true
        (fun namespace_ key =>
          if namespace_ = "repo_info" && key = "o/r" then
            some { expires_at := 100,
                   data := repo_dict (mkRepoInfo "o/r"
                     { full_name := some "o/r", stargazers_count := some 500,
                       size := some 1024, language := some "Python",
                       default_branch := none, html_url := none,
                       description := none, pushed_at := none }) }
          else none)
        0 "o/r"
        (some { full_name := some "o/r", stargazers_count := some 500,
                size := some 1024, language := some "Python",
                default_branch := none, html_url := none,
                description := none, pushed_at := none })
      = get_repo_info false
        (fun namespace_ key =>
          if namespace_ = "repo_info" && key = "o/r" then
            some { expires_at := 100,
                   data := repo_dict (mkRepoInfo "o/r"
                     { full_name := some "o/r", stargazers_count := some 500,
                       size := some 1024, language := some "Python",
                       default_branch := none, html_url := none,
                       description := none, pushed_at := none }) }
          else none)
        0 "o/r"
        (some { full_name := some "o/r", stargazers_count := some 500,
                size := some 1024, language := some "Python",
                default_branch := none, html_url := none,
                description := none, pushed_at := none }) :=
  cache_transparency.2 _ 0 "o/r" _ (by
    intro d hd
    refine ⟨_, rfl, ?_⟩
    have hval : cache_get true
        (fun namespace_ key =>
          if namespace_ = "repo_info" && key = "o/r" then
            some { expires_at := 100,
                   data := repo_dict (mkRepoInfo "o/r"
                     { full_name := some "o/r", stargazers_count := some 500,
                       size := some 1024, language := some "Python",
                       default_branch := none, html_url := none,
                       description := none, pushed_at := none }) }
          else none)
        0 "repo_info" "o/r"
        = some (repo_dict (mkRepoInfo "o/r"
            { full_name := some "o/r", stargazers_count := some 500,
              size := some 1024, language := some "Python",
              default_branch := none, html_url := none,
              description := none, pushed_at := none })) := by decide
    rw [hval] at hd
    exact (Option.some.inj hd).symm)

/-- C5.  The candidate score is monotonically non-decreasing in each of
code-files-changed, total churn, largest single-file churn and issue body
length, the star count and repository size being held fixed. -/
theorem score_candidate_monotone (sqrtFn : Nat → ℚ) (stars : Nat)
    (size_mb : ℚ) (len1 len2 : Int) (s1 s2 : PrChangeStats)
    (hf : s1.changed_non_test_doc_py_files ≤ s2.changed_non_test_doc_py_files)
    (ht : s1.total_changes_non_test_doc_py ≤ s2.total_changes_non_test_doc_py)
    (hm : s1.max_file_changes_non_test_doc_py
      ≤ s2.max_file_changes_non_test_doc_py)
    (hl : len1 ≤ len2) :
    score_candidate sqrtFn stars size_mb len1 s1 ≤
      score_candidate sqrtFn stars size_mb len2 s2 := by
  unfold score_candidate
  dsimp only
  have c1 : ((min s1.changed_non_test_doc_py_files 12 : Nat) : ℚ)
      ≤ ((min s2.changed_non_test_doc_py_files 12 : Nat) : ℚ) := by
    exact_mod_cast min_le_min hf (le_refl 12)
  have c2 : ((min s1.total_changes_non_test_doc_py 1200 : Nat) : ℚ)
      ≤ ((min s2.total_changes_non_test_doc_py 1200 : Nat) : ℚ) := by
    exact_mod_cast min_le_min ht (le_refl 1200)
  have c3 : ((min s1.max_file_changes_non_test_doc_py 500 : Nat) : ℚ)
      ≤ ((min s2.max_file_changes_non_test_doc_py 500 : Nat) : ℚ) := by
    exact_mod_cast min_le_min hm (le_refl 500)
  have c4 : ((min (max len1 0) 4000 : Int) : ℚ)
      ≤ ((min (max len2 0) 4000 : Int) : ℚ) := by
    exact_mod_cast min_le_min (max_le_max hl (le_refl 0)) (le_refl 4000)
  linarith

/-- Witness for C5: a concrete pair of inputs where the four quantities
grow yields a non-decreasing score, the star term instantiated with the
natural square root. -/
theorem score_candidate_monotone_witness :
    score_candidate (fun n => ((Nat.sqrt n : Nat) : ℚ)) 300 100 50
        { changed_py_files := 5, changed_non_test_doc_py_files := 4,
          total_changes_non_test_doc_py := 100,
          max_file_changes_non_test_doc_py := 40, top_changed_files := [] } ≤
      score_candidate (fun n => ((Nat.sqrt n : Nat) : ℚ)) 300 100 80
        { changed_py_files := 6, changed_non_test_doc_py_files := 6,
          total_changes_non_test_doc_py := 180,
          max_file_changes_non_test_doc_py := 90, top_changed_files := [] } :=
  score_candidate_monotone _ 300 100 50 80 _ _ (by decide) (by decide)
    (by decide) (by decide)

/-- Rounding to two decimal places is monotone. -/
theorem round2_mono {a b : ℚ} (h : a ≤ b) : round2 a ≤ round2 b := by
  unfold round2
  have h2 : round (a * 100) ≤ round (b * 100) := by
    rw [round_eq, round_eq]
    exact Int.floor_mono (by linarith)
  have h3 : ((round (a * 100) : ℤ) : ℚ) ≤ ((round (b * 100) : ℤ) : ℚ) := by
    exact_mod_cast h2
  linarith

/-- C6.  Each of the five complexity sub-scores is clamped to its fixed
ceiling, the total score is the arithmetic sum of the sub-scores rounded
to two decimal places, and consequently the total is bounded by the fixed
constant 125 independently of the input. -/
theorem score_complexity_bounded (f t c m l : Nat) :
    (score_complexity f t c m l).files_component ≤ 40 ∧
    (score_complexity f t c m l).changes_component ≤ 30 ∧
    (score_complexity f t c m l).commits_component ≤ 15 ∧
    (score_complexity f t c m l).max_file_component ≤ 25 ∧
    (score_complexity f t c m l).issue_body_component ≤ 15 ∧
    (score_complexity f t c m l).score =
      round2 ((score_complexity f t c m l).files_component +
        (score_complexity f t c m l).changes_component +
        (score_complexity f t c m l).commits_component +
        (score_complexity f t c m l).max_file_component +
        (score_complexity f t c m l).issue_body_component) ∧
    (score_complexity f t c m l).score ≤ 125 := by
  refine ⟨min_le_right _ _, min_le_right _ _, min_le_right _ _,
    min_le_right _ _, min_le_right _ _, rfl, ?_⟩
  show round2 (min ((f : ℚ) * 4) 40 + min ((t : ℚ) / 20) 30 +
      min ((c : ℚ) * 3) 15 + min ((m : ℚ) / 10) 25 + min ((l : ℚ) / 50) 15) ≤ 125
  have hsum : min ((f : ℚ) * 4) 40 + min ((t : ℚ) / 20) 30 +
      min ((c : ℚ) * 3) 15 + min ((m : ℚ) / 10) 25 + min ((l : ℚ) / 50) 15
      ≤ (125 : ℚ) := by
    have b1 := min_le_right ((f : ℚ) * 4) 40
    have b2 := min_le_right ((t : ℚ) / 20) 30
    have b3 := min_le_right ((c : ℚ) * 3) 15
    have b4 := min_le_right ((m : ℚ) / 10) 25
    have b5 := min_le_right ((l : ℚ) / 50) 15
    linarith
  calc round2 (min ((f : ℚ) * 4) 40 + min ((t : ℚ) / 20) 30 +
      min ((c : ℚ) * 3) 15 + min ((m : ℚ) / 10) 25 + min ((l : ℚ) / 50) 15)
      ≤ round2 125 := round2_mono hsum
    _ = 125 := by
        unfold round2
        rw [show ((125 : ℚ) * 100) = ((12500 : ℤ) : ℚ) by norm_num, round_intCast]
        norm_num

/-- The first dispatch of a throttled batch happens no earlier than the
last-request marker plus the minimum interval. -/
theorem throttle_first_dispatch (d last a r : ℚ) (gaps : List (ℚ × ℚ))
    (ha : 0 ≤ a) :
    last + d ≤ (throttle_dispatches d last ((a, r) :: gaps)).getD 0 0 := by
  simp only [throttle_dispatches]
  rw [List.getD_cons_zero]
  split
  case isTrue hx => linarith
  case isFalse hx => linarith [not_lt.mp hx]

/-- Consecutive throttled dispatches are at least the minimum interval
apart. -/
theorem throttle_consecutive (d : ℚ) (gaps : List (ℚ × ℚ)) :
    ∀ (last : ℚ), (∀ g ∈ gaps, 0 ≤ g.1 ∧ 0 ≤ g.2) →
      ∀ k, k + 1 < (throttle_dispatches d last gaps).length →
        (throttle_dispatches d last gaps).getD k 0 + d ≤
          (throttle_dispatches d last gaps).getD (k + 1) 0 := by
  induction gaps with
  | nil =>
      intro last h k hk
      simp [throttle_dispatches] at hk
  | cons g rest ih =>
      intro last h k hk
      obtain ⟨a, r⟩ := g
      simp only [throttle_dispatches] at hk ⊢
      cases k with
      | zero =>
          rw [List.getD_cons_zero, List.getD_cons_succ]
          cases hrest : rest with
          | nil =>
              rw [hrest] at hk
              simp [throttle_dispatches] at hk
          | cons g2 rest2 =>
              obtain ⟨a2, r2⟩ := g2
              have hmem : (a2, r2) ∈ (a, r) :: rest := by
                rw [hrest]
                exact List.mem_cons_of_mem _ (List.mem_cons_self _ _)
              have ha2 : 0 ≤ a2 := (h (a2, r2) hmem).1
              have hr : 0 ≤ r := (h (a, r) (List.mem_cons_self _ _)).2
              have hfirst := throttle_first_dispatch d
                ((if last + a - last < d then last + a + (d - (last + a - last))
                  else last + a) + r) a2 r2 rest2 ha2
              linarith [hfirst]
      | succ k =>
          rw [List.getD_cons_succ, List.getD_cons_succ]
          exact ih _ (fun g hg => h g (List.mem_cons_of_mem _ hg)) k
            (by simp only [List.length_cons] at hk; omega)

/-- Iterating the consecutive bound: the dispatch m places later is at
least m intervals later. -/
theorem throttle_chain (d : ℚ) (gaps : List (ℚ × ℚ)) (last : ℚ)
    (h : ∀ g ∈ gaps, 0 ≤ g.1 ∧ 0 ≤ g.2) :
    ∀ (m i : ℕ), i + m < (throttle_dispatches d last gaps).length →
      (throttle_dispatches d last gaps).getD i 0 + (m : ℚ) * d ≤
        (throttle_dispatches d last gaps).getD (i + m) 0 := by
  intro m
  induction m with
  | zero => intro i hi; simp
  | succ m ih =>
      intro i hi
      have h1 := ih i (by omega)
      have h2 := throttle_consecutive d gaps last h (i + m) (by omega)
      push_cast
      have hidx : i + (m + 1) = i + m + 1 := by omega
      have hexp : ((m : ℚ) + 1) * d = (m : ℚ) * d + d := by ring
      rw [hidx, hexp]
      linarith

/-- C8.  Throttle lower bound: across sequential dispatches with minimum
inter-request interval d, any two dispatch times at positions i ≤ j are at
least (j - i) times d apart; in particular the wall-clock span from the
first of N dispatches to the last is at least (N - 1) times d. -/
theorem throttle_lower_bound (d last : ℚ) (gaps : List (ℚ × ℚ))
    (h : ∀ g ∈ gaps, 0 ≤ g.1 ∧ 0 ≤ g.2) (i j : ℕ) (hij : i ≤ j)
    (hj : j < (throttle_dispatches d last gaps).length) :
    (throttle_dispatches d last gaps).getD i 0 + ((j - i : ℕ) : ℚ) * d ≤
      (throttle_dispatches d last gaps).getD j 0 := by
  have hchain := throttle_chain d gaps last h (j - i) i (by omega)
  rwa [show i + (j - i) = j by omega] at hchain

/-- Witness for C8: three throttled requests with interval 2; the third
dispatch is at least 4 units after the first. -/
theorem throttle_lower_bound_witness :
    (throttle_dispatches 2 0 [(0, 0), (3, 1), (0, 5)]).getD 0 0 +
        ((2 - 0 : ℕ) : ℚ) * 2 ≤
      (throttle_dispatches 2 0 [(0, 0), (3, 1), (0, 5)]).getD 2 0 :=
  throttle_lower_bound 2 0 [(0, 0), (3, 1), (0, 5)] (by decide) 0 2
    (by decide) (by simp [throttle_dispatches])

end IssueFinder
